import Mathlib

/-!
Shallow embedding of the `chroma_db_mcp` memory service
(`src/decorators.py`, `src/database.py`, `src/tools.py`) and proofs of the
spec's claims about it.

Modelling conventions:
* Python dicts with string keys are association lists (`Metadata`), with
  first-match lookup and Python `dict.update` / key-assignment semantics.
* The ChromaDB persistent store is a `Store`: an association list from
  collection name to `Collection`, itself an association list from document
  id to `(embedding, metadata)`.  `get_or_create_collection` is
  `getOrCreate`; `collection.add` on a single id is an upsert
  (`storePut`); `collection.update` likewise rewrites the addressed record.
* Embedding vectors and distances are opaque payloads the service never
  computes with; they are carried as `Emb := List Int` and `Dist := Int`.
* The Gemini calls are oracles: `generate_embedding` is an
  `Except Err Emb` argument (it either produces a vector or raises), the
  nearest-neighbour search of `collection.query` is a `QueryOracle`
  argument returning the store's ranked rows, and `generate_summary` is a
  `gen : String → String → Except Err String` argument.  Summarization
  operations additionally return a `Bool` recording whether `gen` was
  invoked.
* Exceptions are the `Err` sum, threaded as `Except Err α`; the store
  state is threaded explicitly, and is returned also on the error path
  (Python exceptions do not roll back earlier mutations).
-/

deriving instance DecidableEq for Except

namespace ChromaMcp

/-- Python dict with string keys and string values, as an association list
(first match wins on lookup; at most one entry per key once built by
`dictSet`/`dictUpdate`). -/
abbrev Metadata := List (String × String)

/-- `d[k]` lookup returning `none` where Python raises `KeyError`. -/
def dictLookup : Metadata → String → Option String
  | [], _ => none
  | (k', v) :: rest, k => if k = k' then some v else dictLookup rest k

/-- `k in d`. -/
def dictContains (d : Metadata) (k : String) : Bool :=
  (dictLookup d k).isSome

/-- `d[k] = v`: replace the entry for `k` if present, else append it. -/
def dictSet : Metadata → String → String → Metadata
  | [], k, v => [(k, v)]
  | (k', v') :: rest, k, v =>
    if k = k' then (k, v) :: rest else (k', v') :: dictSet rest k v

/-- `d.update(m)`: assign every entry of `m` into `d`, left to right. -/
def dictUpdate : Metadata → Metadata → Metadata
  | d, [] => d
  | d, (k, v) :: rest => dictUpdate (dictSet d k v) rest

/-- Embedding vector: opaque payload produced by the Model Provider and
stored/copied verbatim by the service (the service never computes with its
components, so their numeric type is immaterial). -/
abbrev Emb := List Int

/-- Similarity distance: opaque scalar reported by the Vector Store. -/
abbrev Dist := Int

/-- Error kinds raised by the service; every one is surfaced to callers
wrapped in the uniform `McpError` envelope by `handle_errors_as_mcp`. -/
inductive Err where
  | validation (msg : String)
  | privilege (msg : String)
  | upstream (msg : String)
  | storeErr (msg : String)
  | keyError (key : Int)
deriving DecidableEq, Repr

/-- One ChromaDB collection: records keyed by document id. -/
structure Collection where
  recs : List (String × Emb × Metadata)
deriving DecidableEq, Repr

/-- The ChromaDB persistent client's state: collections keyed by name. -/
structure Store where
  cols : List (String × Collection)
deriving DecidableEq, Repr

def lookupCol : List (String × Collection) → String → Option Collection
  | [], _ => none
  | (n, c) :: rest, name => if name = n then some c else lookupCol rest name

def lookupRec : List (String × Emb × Metadata) → String → Option (Emb × Metadata)
  | [], _ => none
  | (i, e, m) :: rest, id => if id = i then some (e, m) else lookupRec rest id

/-- `collection.add` / `collection.update` on one id: upsert semantics. -/
def upsertRec : List (String × Emb × Metadata) → String → Emb → Metadata →
    List (String × Emb × Metadata)
  | [], id, e, m => [(id, e, m)]
  | (i, e', m') :: rest, id, e, m =>
    if id = i then (id, e, m) :: rest else (i, e', m') :: upsertRec rest id e m

/-- `chroma_client.get_or_create_collection(name)` (`database.get_collection`):
returns the existing collection, or creates an empty one — a persistent
side effect on the store. -/
def getOrCreate (s : Store) (name : String) : Collection × Store :=
  match lookupCol s.cols name with
  | some c => (c, s)
  | none => (⟨[]⟩, ⟨s.cols ++ [(name, ⟨[]⟩)]⟩)

/-- Upsert one record into every entry named `name` of the collection list. -/
def putCols : List (String × Collection) → String → String → Emb → Metadata →
    List (String × Collection)
  | [], _, _, _, _ => []
  | (n, c) :: rest, name, id, e, m =>
    if n = name then (n, ⟨upsertRec c.recs id e m⟩) :: putCols rest name id e m
    else (n, c) :: putCols rest name id e m

/-- Write one record into the named collection (which the caller has just
resolved via `getOrCreate`, so it exists). -/
def storePut (s : Store) (name id : String) (e : Emb) (m : Metadata) : Store :=
  ⟨putCols s.cols name id e m⟩

/-- `chroma_client.delete_collection(name)` removes the named collection. -/
def removeCol : List (String × Collection) → String → List (String × Collection)
  | [], _ => []
  | (n, c) :: rest, name =>
    if n = name then removeCol rest name else (n, c) :: removeCol rest name

/-- The records currently stored under `name` (empty when the collection
does not exist). -/
def recordsOf (s : Store) (name : String) : List (String × Emb × Metadata) :=
  match lookupCol s.cols name with
  | some c => c.recs
  | none => []

/-! ## Privilege gate (`src/decorators.py`) -/

/-- Full service state: the module-level `_privilege_granted` flag plus the
vector store. -/
structure SysState where
  privilege : Bool
  store : Store
deriving DecidableEq, Repr

/-- `grant_privilege()`: sets the flag and returns `True`. -/
def grant_privilege (st : SysState) : Bool × SysState :=
  (true, { st with privilege := true })

/-- The two operations decorated with `require_privilege`. -/
inductive PrivOp where
  | deleteCollection (name : String)
  | listCollections
deriving DecidableEq, Repr

/-- `func.__name__` as interpolated into the privilege error message. -/
def privOpName : PrivOp → String
  | .deleteCollection _ => "delete_collection"
  | .listCollections => "list_collections"

/-- Result of a privileged operation's body. -/
inductive PrivOutcome where
  | deleted (ok : Bool)
  | listed (names : List String)
deriving DecidableEq, Repr

/-- Body of `delete_collection` (under the decorators): validates the name,
then asks the chroma client to delete the collection, which raises if the
collection does not exist. -/
def delete_collection_body (name : String) (s : Store) :
    Except Err PrivOutcome × Store :=
  if name = "" then (.error (.validation "Collection name cannot be empty."), s)
  else
    match lookupCol s.cols name with
    | none => (.error (.storeErr ("Collection " ++ name ++ " does not exist.")), s)
    | some _ => (.ok (.deleted true), ⟨removeCol s.cols name⟩)

/-- Body of `list_collections`: returns the collection names, no mutation. -/
def list_collections_body (s : Store) : Except Err PrivOutcome × Store :=
  (.ok (.listed (s.cols.map Prod.fst)), s)

/-- The `require_privilege` wrapper: if `_privilege_granted` is set it is
reset to `False` first and only then the wrapped function runs; otherwise an
`McpError` wrapping a `PrivilegeError` is raised and nothing else happens. -/
def require_privilege (opName : String)
    (body : Store → Except Err PrivOutcome × Store) (st : SysState) :
    Except Err PrivOutcome × SysState :=
  match st.privilege with
  | true =>
    ((body st.store).1, { privilege := false, store := (body st.store).2 })
  | false =>
    (.error (.privilege ("Operation '" ++ opName ++
      "' requires privilege. Use 'grant_privilege' first.")), st)

/-- Dispatch one privileged tool call. -/
def runPrivOp (op : PrivOp) (st : SysState) : Except Err PrivOutcome × SysState :=
  match op with
  | .deleteCollection name =>
    require_privilege (privOpName op) (delete_collection_body name) st
  | .listCollections =>
    require_privilege (privOpName op) list_collections_body st

/-- Run a sequence of privileged calls, collecting each call's result. -/
def runPrivSeq : List PrivOp → SysState → List (Except Err PrivOutcome) × SysState
  | [], st => ([], st)
  | op :: ops, st =>
    let (r, st') := runPrivOp op st
    let (rs, st'') := runPrivSeq ops st'
    (r :: rs, st'')

/-- Does a call result carry a privilege error? -/
def isPrivErr : Except Err PrivOutcome → Bool
  | .error (.privilege _) => true
  | _ => false

/-! ## Memory operations (`src/tools.py`)

Each operation returns its `Except` result together with the store state
after the call (mutations made before an exception persist). -/

/-- `config.DEFAULT_COLLECTION_NAME`. -/
def DEFAULT_COLLECTION_NAME : String := "agent_memory"

/-- `llm_utils.generate_embedding` (llm_utils.py:23-50): validates the
text, then asks the Gemini API; `apiResult` is the `result.get("embedding")`
value, `none` standing for a missing field.  A missing or empty embedding
raises, so a successful call always yields a non-empty vector.  (An unknown
`task_type` is only logged, never rejected.) -/
def generate_embedding (text : String) (task_type : String)
    (apiResult : Option Emb) : Except Err Emb :=
  if text = "" then .error (.validation "Invalid text provided for embedding.")
  else
    match apiResult with
    | none => .error (.upstream ("Gemini API failed to return embedding for task '"
        ++ task_type ++ "'."))
    | some e =>
      if e = [] then
        .error (.upstream ("Gemini API failed to return embedding for task '"
          ++ task_type ++ "'."))
      else .ok e

/-- One row of a `collection.query` response: the row's metadata dict (as
chroma reports it, possibly absent) and its distance.  The two `include`d
lists of a response are index-aligned by the store's contract, so a row
carries both. -/
structure QueryRow where
  metadata : Option Metadata
  distance : Dist
deriving DecidableEq, Repr

/-- The Vector Store's nearest-neighbour search
(`collection.query(query_embeddings=[e], n_results=k, where=f)` on the
collection named `name`), abstracted as an oracle: the service treats its
ranked rows as given. -/
abbrev QueryOracle := Emb → Nat → Option Metadata → String → List QueryRow

/-- `add_memory` (tools.py:16-47).  `genId` stands for `uuid.uuid4().hex`;
`embedRes` is the outcome of the
`llm_utils.generate_embedding(text, "RETRIEVAL_DOCUMENT")` call.  Note the
collection is resolved (and so possibly created) before the embedding call. -/
def add_memory (text : String) (doc_id : Option String) (genId : String)
    (metadata : Option Metadata) (collection_name : String)
    (embedRes : Except Err Emb) (s : Store) : Except Err String × Store :=
  if text = "" then (.error (.validation "Text content cannot be empty."), s)
  else
    let final_doc_id :=
      match doc_id with
      | some d => if d = "" then genId else d
      | none => genId
    let s1 := (getOrCreate s collection_name).2
    match embedRes with
    | .error e => (.error e, s1)
    | .ok embedding =>
      let final_metadata := dictUpdate [("original_text", text)] (metadata.getD [])
      (.ok final_doc_id, storePut s1 collection_name final_doc_id embedding final_metadata)

/-- The result-extraction loop of `recall_memory` (tools.py:75-79): keep
`metadata_item["original_text"]` for each truthy metadata dict containing
that key. -/
def recall_texts_loop : List QueryRow → List String
  | [] => []
  | row :: rest =>
    match row.metadata with
    | some md =>
      if md ≠ [] ∧ dictContains md "original_text" then
        (dictLookup md "original_text").getD "" :: recall_texts_loop rest
      else recall_texts_loop rest
    | none => recall_texts_loop rest

/-- `recall_memory` (tools.py:50-84). -/
def recall_memory (query : String) (top_k : Nat) (filter : Option Metadata)
    (collection_name : String) (embedRes : Except Err Emb)
    (oracle : QueryOracle) (s : Store) : Except Err (List String) × Store :=
  if query = "" then (.error (.validation "Query cannot be empty."), s)
  else
    let s1 := (getOrCreate s collection_name).2
    match embedRes with
    | .error e => (.error e, s1)
    | .ok query_embedding =>
      (.ok (recall_texts_loop (oracle query_embedding top_k filter collection_name)), s1)

/-- The extraction loop of `recall_memory_with_distance` (tools.py:329-340):
same filter, but paired with `results["distances"][0][i]`. -/
def recall_with_distance_loop : List QueryRow → List (String × Dist)
  | [] => []
  | row :: rest =>
    match row.metadata with
    | some md =>
      if md ≠ [] ∧ dictContains md "original_text" then
        ((dictLookup md "original_text").getD "", row.distance) ::
          recall_with_distance_loop rest
      else recall_with_distance_loop rest
    | none => recall_with_distance_loop rest

/-- `recall_memory_with_distance` (tools.py:302-345). -/
def recall_memory_with_distance (query : String) (top_k : Nat)
    (filter : Option Metadata) (collection_name : String)
    (embedRes : Except Err Emb) (oracle : QueryOracle) (s : Store) :
    Except Err (List (String × Dist)) × Store :=
  if query = "" then (.error (.validation "Query cannot be empty."), s)
  else
    let s1 := (getOrCreate s collection_name).2
    match embedRes with
    | .error e => (.error e, s1)
    | .ok query_embedding =>
      (.ok (recall_with_distance_loop
        (oracle query_embedding top_k filter collection_name)), s1)

/-- Python `needle.lower() in hay.lower()`: case-insensitive substring test
(`str.lower` modelled per character). -/
def lowerContains (needle hay : String) : Bool :=
  (hay.data.map Char.toLower).tails.any fun t =>
    (needle.data.map Char.toLower).isPrefixOf t

/-- The extraction loop of `recall_memory_hybrid` (tools.py:377-385): the
`original_text` filter of `recall_memory`, then the keyword filter
`keyword is None or keyword.lower() in text.lower()`. -/
def hybrid_texts_loop (keyword : Option String) : List QueryRow → List String
  | [] => []
  | row :: rest =>
    match row.metadata with
    | some md =>
      if md ≠ [] ∧ dictContains md "original_text" then
        let text := (dictLookup md "original_text").getD ""
        if (match keyword with
            | none => true
            | some kw => lowerContains kw text) then
          text :: hybrid_texts_loop keyword rest
        else hybrid_texts_loop keyword rest
      else hybrid_texts_loop keyword rest
    | none => hybrid_texts_loop keyword rest

/-- `recall_memory_hybrid` (tools.py:348-390). -/
def recall_memory_hybrid (query : String) (keyword : Option String)
    (top_k : Nat) (filter : Option Metadata) (collection_name : String)
    (embedRes : Except Err Emb) (oracle : QueryOracle) (s : Store) :
    Except Err (List String) × Store :=
  if query = "" then (.error (.validation "Query cannot be empty."), s)
  else
    let s1 := (getOrCreate s collection_name).2
    match embedRes with
    | .error e => (.error e, s1)
    | .ok query_embedding =>
      (.ok (hybrid_texts_loop keyword
        (oracle query_embedding top_k filter collection_name)), s1)

/-- `get_memory_by_id` (tools.py:256-288).  `collection.get(ids=[doc_id])`
returns flat per-id lists — `results["metadatas"]` is a list of metadata
dicts, one per found id (exactly as `update_memory_metadata` at
tools.py:241 and `summarize_collection` at tools.py:197 consume it).  Hence
`results["metadatas"][0]` at tools.py:275 is the found record's metadata
dict, and the subsequent `results["metadatas"][0][0]` at tools.py:281
subscripts that string-keyed dict with the integer key `0`, which is never
present (chroma validates metadata keys to be strings), raising
`KeyError(0)` — wrapped in `McpError` by `handle_errors_as_mcp`. -/
def get_memory_by_id (doc_id : String) (collection_name : String) (s : Store) :
    Except Err String × Store :=
  if doc_id = "" then (.error (.validation "doc_id cannot be empty."), s)
  else
    let s1 := (getOrCreate s collection_name).2
    match lookupRec (getOrCreate s collection_name).1.recs doc_id with
    | none => (.ok "", s1)
    | some (_emb, md) =>
      if md = [] then (.ok "", s1)
      else (.error (.keyError 0), s1)

/-- `update_memory_metadata` (tools.py:215-253): validates inputs, fetches
the existing record to preserve its embedding (raising not-found when the
id is absent or the stored embedding is empty), then rewrites the record
with the caller's metadata (wholesale replacement) and the old embedding. -/
def update_memory_metadata (doc_id : String) (metadata : Metadata)
    (collection_name : String) (s : Store) : Except Err Bool × Store :=
  if doc_id = "" then (.error (.validation "doc_id cannot be empty."), s)
  else if metadata = [] then
    (.error (.validation "Metadata must be a non-empty dictionary."), s)
  else
    let s1 := (getOrCreate s collection_name).2
    match lookupRec (getOrCreate s collection_name).1.recs doc_id with
    | none =>
      (.error (.validation ("Document with id '" ++ doc_id ++
        "' not found in collection '" ++ collection_name ++ "'.")), s1)
    | some (embedding, _old) =>
      if embedding = [] then
        (.error (.validation ("Document with id '" ++ doc_id ++
          "' not found in collection '" ++ collection_name ++ "'.")), s1)
      else
        (.ok true, storePut s1 collection_name doc_id embedding metadata)

/-! ## Summarization operations -/

/-- Python `sep.join(texts)`. -/
def joinSep (sep : String) : List String → String
  | [] => ""
  | [t] => t
  | t :: ts => t ++ sep ++ joinSep sep ts

/-- `combined_chunks = "\n---\n".join(retrieved_texts)` of `summarize_memory`
(tools.py:135): Python `sep.join` with the five-character separator
newline, `-`, `-`, `-`, newline. -/
def summarize_memory_combined (retrieved_texts : List String) : String :=
  joinSep "\n---\n" retrieved_texts

/-- `combined_chunks = "\\n---\\n".join(retrieved_texts)` of
`summarize_collection` (tools.py:208): the separator in the source is the
seven-character literal backslash, `n`, `-`, `-`, `-`, backslash, `n` — the
backslashes are escaped there, so no newline is produced. -/
def summarize_collection_combined (retrieved_texts : List String) : String :=
  joinSep "\\n---\\n" retrieved_texts

/-- `summarize_memory` (tools.py:108-139): recalls via `recall_memory`,
short-circuits to `""` on empty context, otherwise joins the texts and
delegates to `llm_utils.generate_summary` (`gen`).  The extra `Bool`
records whether `gen` was invoked. -/
def summarize_memory (query : String) (top_k : Nat) (filter : Option Metadata)
    (collection_name : String) (embedRes : Except Err Emb)
    (oracle : QueryOracle) (gen : String → String → Except Err String)
    (s : Store) : (Except Err String × Bool) × Store :=
  if query = "" then ((.error (.validation "Query cannot be empty."), false), s)
  else
    match recall_memory query top_k filter collection_name embedRes oracle s with
    | (.error e, s1) => ((.error e, false), s1)
    | (.ok retrieved_texts, s1) =>
      if retrieved_texts = [] then ((.ok "", false), s1)
      else ((gen (summarize_memory_combined retrieved_texts) query, true), s1)

/-- The text-collection loop of `summarize_collection` (tools.py:196-199)
over the flat `results["metadatas"]` of `collection.get`. -/
def collection_texts_loop : List Metadata → List String
  | [] => []
  | md :: rest =>
    if md ≠ [] ∧ dictContains md "original_text" then
      (dictLookup md "original_text").getD "" :: collection_texts_loop rest
    else collection_texts_loop rest

/-- `summarize_collection` (tools.py:174-212): fetches every record's
metadata, short-circuits to `""` when the collection has no records or no
record carries `original_text`, otherwise joins and delegates to `gen`. -/
def summarize_collection (collection_name : String) (query : String)
    (gen : String → String → Except Err String) (s : Store) :
    (Except Err String × Bool) × Store :=
  if collection_name = "" then
    ((.error (.validation "Collection name cannot be empty."), false), s)
  else
    let s1 := (getOrCreate s collection_name).2
    let metadatas := (getOrCreate s collection_name).1.recs.map fun r => r.2.2
    if metadatas = [] then ((.ok "", false), s1)
    else
      let retrieved_texts := collection_texts_loop metadatas
      if retrieved_texts = [] then ((.ok "", false), s1)
      else ((gen (summarize_collection_combined retrieved_texts) query, true), s1)

/-! ## Theorems -/

/-- From an ungranted state, the `require_privilege` wrapper rejects any
privileged call and leaves the whole state unchanged. -/
theorem runPrivOp_ungranted (op : PrivOp) (st : SysState)
    (h : st.privilege = false) :
    runPrivOp op st =
      (.error (.privilege ("Operation '" ++ privOpName op ++
        "' requires privilege. Use 'grant_privilege' first.")), st) := by
  cases op <;> simp [runPrivOp, require_privilege, h]

/-- From an ungranted state, every call of a privileged sequence fails with
a privilege error and the state never changes. -/
theorem runPrivSeq_ungranted (ops : List PrivOp) (st : SysState)
    (h : st.privilege = false) :
    (runPrivSeq ops st).1.all isPrivErr = true ∧ (runPrivSeq ops st).2 = st := by
  induction ops with
  | nil => simp [runPrivSeq]
  | cons op rest ih =>
    simp only [runPrivSeq, runPrivOp_ungranted op st h]
    simpa [isPrivErr] using ih

/-- The body of `delete_collection` never raises a privilege error itself
(its failures are validation or store errors). -/
theorem delete_collection_body_not_privErr (name : String) (s : Store) :
    isPrivErr (delete_collection_body name s).1 = false := by
  unfold delete_collection_body
  split
  · rfl
  · split <;> rfl

/-- From a granted state, a privileged call consumes the token (the flag is
`false` afterwards) and is never rejected by the gate. -/
theorem runPrivOp_granted (op : PrivOp) (s : Store) :
    isPrivErr (runPrivOp op ⟨true, s⟩).1 = false ∧
    (runPrivOp op ⟨true, s⟩).2.privilege = false := by
  cases op with
  | deleteCollection name =>
    exact ⟨delete_collection_body_not_privErr name s, rfl⟩
  | listCollections =>
    exact ⟨rfl, rfl⟩

/-- C1: the privilege gate is single-use.  `grant_privilege` returns `true`
and sets the token; the first subsequent privileged call is not rejected by
the gate and the token is already `false` in the state it leaves behind;
every later privileged call of the sequence (with no intervening grant)
fails with a privilege error and changes nothing. -/
theorem privilege_gate_single_use (p : Bool) (s : Store) (op : PrivOp)
    (ops : List PrivOp) :
    (grant_privilege ⟨p, s⟩).1 = true ∧
    (grant_privilege ⟨p, s⟩).2.privilege = true ∧
    isPrivErr (runPrivOp op (grant_privilege ⟨p, s⟩).2).1 = false ∧
    (runPrivOp op (grant_privilege ⟨p, s⟩).2).2.privilege = false ∧
    (runPrivSeq ops (runPrivOp op (grant_privilege ⟨p, s⟩).2).2).1.all isPrivErr
      = true ∧
    (runPrivSeq ops (runPrivOp op (grant_privilege ⟨p, s⟩).2).2).2 =
      (runPrivOp op (grant_privilege ⟨p, s⟩).2).2 := by
  have hgr : (grant_privilege ⟨p, s⟩).2 = (⟨true, s⟩ : SysState) := rfl
  rw [hgr]
  have h1 := runPrivOp_granted op s
  have h2 := runPrivSeq_ungranted ops (runPrivOp op ⟨true, s⟩).2 h1.2
  exact ⟨rfl, rfl, h1.1, h1.2, h2.1, h2.2⟩

/-- C2: a privileged call made while the token is `false` fails with a
privilege error, performs no side effect (the store is untouched), and
leaves the token `false`. -/
theorem privileged_call_denied_without_grant (op : PrivOp) (st : SysState)
    (h : st.privilege = false) :
    (runPrivOp op st).1 =
      .error (.privilege ("Operation '" ++ privOpName op ++
        "' requires privilege. Use 'grant_privilege' first.")) ∧
    (runPrivOp op st).2.store = st.store ∧
    (runPrivOp op st).2.privilege = false := by
  rw [runPrivOp_ungranted op st h]
  exact ⟨rfl, rfl, h⟩

/-- Witness for C2 at a concrete state: an ungranted `list_collections`
call on the empty store. -/
theorem privileged_call_denied_without_grant_witness :
    (runPrivOp .listCollections ⟨false, ⟨[]⟩⟩).1 =
      .error (.privilege ("Operation '" ++ privOpName .listCollections ++
        "' requires privilege. Use 'grant_privilege' first.")) ∧
    (runPrivOp .listCollections ⟨false, ⟨[]⟩⟩).2.store = Store.mk [] ∧
    (runPrivOp .listCollections ⟨false, ⟨[]⟩⟩).2.privilege = false :=
  privileged_call_denied_without_grant .listCollections ⟨false, ⟨[]⟩⟩ rfl

/-! ### Store lemmas -/

theorem lookupCol_append (l l' : List (String × Collection)) (n : String) :
    lookupCol (l ++ l') n =
      match lookupCol l n with
      | some c => some c
      | none => lookupCol l' n := by
  induction l with
  | nil => simp [lookupCol]
  | cons hd tl ih =>
    obtain ⟨k, c⟩ := hd
    by_cases h : n = k
    · simp [lookupCol, h]
    · simp [lookupCol, h, ih]

/-- The collection handle `getOrCreate` returns holds exactly the records
stored under the name (empty when it is being created). -/
theorem getOrCreate_fst_recs (s : Store) (name : String) :
    (getOrCreate s name).1.recs = recordsOf s name := by
  unfold getOrCreate recordsOf
  cases lookupCol s.cols name <;> rfl

/-- Collection resolution never changes any collection's records: the only
possible effect is the creation of an empty collection. -/
theorem recordsOf_getOrCreate (s : Store) (name n : String) :
    recordsOf (getOrCreate s name).2 n = recordsOf s n := by
  unfold getOrCreate
  cases hc : lookupCol s.cols name with
  | some c => rfl
  | none =>
    unfold recordsOf
    simp only [lookupCol_append]
    cases hn : lookupCol s.cols n with
    | some c => rfl
    | none =>
      by_cases h : n = name
      · subst h; simp [lookupCol]
      · simp [lookupCol, h]

theorem getOrCreate_present (s : Store) (name : String) (c : Collection)
    (h : lookupCol s.cols name = some c) : getOrCreate s name = (c, s) := by
  unfold getOrCreate; rw [h]

theorem lookupRec_upsertRec_self (recs : List (String × Emb × Metadata))
    (id : String) (e : Emb) (m : Metadata) :
    lookupRec (upsertRec recs id e m) id = some (e, m) := by
  induction recs with
  | nil => simp [upsertRec, lookupRec]
  | cons hd tl ih =>
    obtain ⟨i, e', m'⟩ := hd
    by_cases h : id = i
    · simp [upsertRec, lookupRec, h]
    · simp [upsertRec, lookupRec, h, ih]

theorem lookupCol_putCols (cols : List (String × Collection))
    (name id : String) (e : Emb) (m : Metadata) (n : String) :
    lookupCol (putCols cols name id e m) n =
      if n = name then
        (lookupCol cols n).map fun c => ⟨upsertRec c.recs id e m⟩
      else lookupCol cols n := by
  induction cols with
  | nil => by_cases h : n = name <;> simp [putCols, lookupCol, h]
  | cons hd tl ih =>
    obtain ⟨k, c⟩ := hd
    by_cases hkn : k = name
    · subst hkn
      by_cases hnk : n = k
      · subst hnk
        simp [putCols, lookupCol]
      · simp [putCols, lookupCol, hnk, ih]
    · by_cases hnk : n = k
      · subst hnk
        simp [putCols, lookupCol, hkn]
      · simp [putCols, lookupCol, hkn, hnk, ih]

/-- Writing a record into collection `name` upserts it there (a no-op when
the collection is absent, which `getOrCreate` rules out in every caller). -/
theorem recordsOf_storePut_self (s : Store) (name id : String) (e : Emb)
    (m : Metadata) :
    recordsOf (storePut s name id e m) name =
      match lookupCol s.cols name with
      | some c => upsertRec c.recs id e m
      | none => [] := by
  unfold recordsOf storePut
  rw [show (Store.mk (putCols s.cols name id e m)).cols =
      putCols s.cols name id e m from rfl]
  rw [lookupCol_putCols, if_pos rfl]
  cases lookupCol s.cols name <;> rfl

/-- C3 (round trip, evaluated at the failing input): on an empty store,
`add_memory(text="X")` succeeds and stores the record with
`original_text = "X"`, but the immediately following `get_memory_by_id`
with the returned id does not return `"X"` — it raises `KeyError(0)`
(wrapped in `McpError`), because tools.py:281 subscripts the record's
string-keyed metadata dict with the integer `0`. -/
theorem round_trip_raises_keyerror :
    (add_memory "X" none "id1" none DEFAULT_COLLECTION_NAME (.ok [1]) ⟨[]⟩).1
      = .ok "id1" ∧
    (add_memory "X" none "id1" none DEFAULT_COLLECTION_NAME (.ok [1]) ⟨[]⟩).2
      = ⟨[("agent_memory", ⟨[("id1", [1], [("original_text", "X")])]⟩)]⟩ ∧
    get_memory_by_id "id1" DEFAULT_COLLECTION_NAME
        ⟨[("agent_memory", ⟨[("id1", [1], [("original_text", "X")])]⟩)]⟩
      = (.error (.keyError 0),
          ⟨[("agent_memory", ⟨[("id1", [1], [("original_text", "X")])]⟩)]⟩) := by
  refine ⟨by decide, by decide, by decide⟩

/-- C6: `update_memory_metadata` fails with the not-found error when no
record with the id exists in the collection; when the record exists (its
stored embedding being the non-empty vector `add_memory` wrote), it
succeeds with `true` and writes back the existing embedding unchanged, so
the record's vector — and hence its distance to any fixed query under any
distance function — is the same before and after the update. -/
theorem update_metadata_preserves_embedding (doc_id : String)
    (metadata : Metadata) (name : String) (s : Store)
    (hid : doc_id ≠ "") (hmd : metadata ≠ []) :
    (lookupRec (recordsOf s name) doc_id = none →
      update_memory_metadata doc_id metadata name s =
        (.error (.validation ("Document with id '" ++ doc_id ++
          "' not found in collection '" ++ name ++ "'.")),
         (getOrCreate s name).2)) ∧
    (∀ emb md0, lookupRec (recordsOf s name) doc_id = some (emb, md0) →
      emb ≠ [] →
      (update_memory_metadata doc_id metadata name s).1 = .ok true ∧
      lookupRec (recordsOf (update_memory_metadata doc_id metadata name s).2 name)
          doc_id = some (emb, metadata) ∧
      ∀ (dist : Emb → Emb → Dist) (q : Emb),
        ((lookupRec (recordsOf (update_memory_metadata doc_id metadata name s).2
            name) doc_id).map fun r => dist q r.1) =
        ((lookupRec (recordsOf s name) doc_id).map fun r => dist q r.1)) := by
  constructor
  · intro hnone
    unfold update_memory_metadata
    rw [if_neg hid, if_neg hmd, getOrCreate_fst_recs, hnone]
  · intro emb md0 hsome hemb
    have hrec : update_memory_metadata doc_id metadata name s =
        (.ok true, storePut (getOrCreate s name).2 name doc_id emb metadata) := by
      unfold update_memory_metadata
      rw [if_neg hid, if_neg hmd, getOrCreate_fst_recs, hsome]
      simp [hemb]
    obtain ⟨c, hc⟩ : ∃ c, lookupCol s.cols name = some c := by
      unfold recordsOf at hsome
      cases hcc : lookupCol s.cols name with
      | some c => exact ⟨c, rfl⟩
      | none => rw [hcc] at hsome; simp [lookupRec] at hsome
    have hg : getOrCreate s name = (c, s) := getOrCreate_present s name c hc
    have hafter : lookupRec
        (recordsOf (update_memory_metadata doc_id metadata name s).2 name) doc_id
        = some (emb, metadata) := by
      rw [hrec, hg]
      rw [show (Except.ok true (ε := Err),
        storePut s name doc_id emb metadata).2 =
        storePut s name doc_id emb metadata from rfl]
      rw [recordsOf_storePut_self, hc, lookupRec_upsertRec_self]
    refine ⟨by rw [hrec], hafter, ?_⟩
    intro dist q
    rw [hafter, hsome]
    rfl

/-- Witness for C6 at a concrete input: updating the metadata of the one
record of a one-record collection succeeds and keeps its embedding. -/
theorem update_metadata_preserves_embedding_witness :
    (update_memory_metadata "id1" [("topic", "t")] "agent_memory"
        ⟨[("agent_memory", ⟨[("id1", [1], [("original_text", "X")])]⟩)]⟩).1
      = .ok true ∧
    lookupRec (recordsOf
        (update_memory_metadata "id1" [("topic", "t")] "agent_memory"
          ⟨[("agent_memory", ⟨[("id1", [1], [("original_text", "X")])]⟩)]⟩).2
        "agent_memory") "id1"
      = some ([1], [("topic", "t")]) := by
  have h := (update_metadata_preserves_embedding "id1" [("topic", "t")]
    "agent_memory"
    ⟨[("agent_memory", ⟨[("id1", [1], [("original_text", "X")])]⟩)]⟩
    (by decide) (by decide)).2 [1] [("original_text", "X")] (by decide) (by decide)
  exact ⟨h.1, h.2.1⟩

/-- C7, counterexample: a failed `add_memory` need not leave the store
exactly as it was — on an empty store, an `add_memory` whose embedding
call fails still leaves behind the freshly created (empty) target
collection, because `database.get_collection` resolves (and creates) the
collection before `llm_utils.generate_embedding` is called. -/
theorem failed_add_memory_mutates_store :
    (add_memory "a" none "id1" none DEFAULT_COLLECTION_NAME
        (.error (.upstream
          "Gemini API failed to return embedding for task 'RETRIEVAL_DOCUMENT'."))
        ⟨[]⟩).1
      = .error (.upstream
          "Gemini API failed to return embedding for task 'RETRIEVAL_DOCUMENT'.")
    ∧
    (add_memory "a" none "id1" none DEFAULT_COLLECTION_NAME
        (.error (.upstream
          "Gemini API failed to return embedding for task 'RETRIEVAL_DOCUMENT'."))
        ⟨[]⟩).2
      ≠ (⟨[]⟩ : Store) := by
  refine ⟨by decide, by decide⟩

/-- C7 as amended: a failed mutating operation leaves every collection's
records exactly as they were — a failed `add_memory` adds no record and a
failed `update_memory_metadata` rewrites none — the only store effect that
can persist being the lazy creation of the (empty) target collection by
collection resolution. -/
theorem failed_mutation_preserves_records :
    (∀ text doc_id genId metadata name embedRes s e,
      (add_memory text doc_id genId metadata name embedRes s).1 = .error e →
      ∀ n, recordsOf (add_memory text doc_id genId metadata name embedRes s).2 n
        = recordsOf s n) ∧
    (∀ doc_id metadata name s e,
      (update_memory_metadata doc_id metadata name s).1 = .error e →
      ∀ n, recordsOf (update_memory_metadata doc_id metadata name s).2 n
        = recordsOf s n) := by
  constructor
  · intro text doc_id genId metadata name embedRes s e hfail n
    unfold add_memory at hfail ⊢
    by_cases ht : text = ""
    · rw [if_pos ht] at hfail ⊢
    · rw [if_neg ht] at hfail ⊢
      cases embedRes with
      | error e' => exact recordsOf_getOrCreate s name n
      | ok emb => simp at hfail
  · intro doc_id metadata name s e hfail n
    by_cases hid : doc_id = ""
    · have hval : update_memory_metadata doc_id metadata name s =
          (.error (.validation "doc_id cannot be empty."), s) := by
        unfold update_memory_metadata; rw [if_pos hid]
      rw [hval]
    · by_cases hmd : metadata = []
      · have hval : update_memory_metadata doc_id metadata name s =
            (.error (.validation "Metadata must be a non-empty dictionary."), s) := by
          unfold update_memory_metadata; rw [if_neg hid, if_pos hmd]
        rw [hval]
      · cases hlr : lookupRec (getOrCreate s name).1.recs doc_id with
        | none =>
          have hval : update_memory_metadata doc_id metadata name s =
              (.error (.validation ("Document with id '" ++ doc_id ++
                "' not found in collection '" ++ name ++ "'.")),
               (getOrCreate s name).2) := by
            unfold update_memory_metadata
            rw [if_neg hid, if_neg hmd]
            simp only [hlr]
          rw [hval]
          exact recordsOf_getOrCreate s name n
        | some em =>
          obtain ⟨emb, md0⟩ := em
          by_cases hemb : emb = []
          · have hval : update_memory_metadata doc_id metadata name s =
                (.error (.validation ("Document with id '" ++ doc_id ++
                  "' not found in collection '" ++ name ++ "'.")),
                 (getOrCreate s name).2) := by
              unfold update_memory_metadata
              rw [if_neg hid, if_neg hmd]
              simp only [hlr, if_pos hemb]
            rw [hval]
            exact recordsOf_getOrCreate s name n
          · have hval : (update_memory_metadata doc_id metadata name s).1 =
                .ok true := by
              unfold update_memory_metadata
              rw [if_neg hid, if_neg hmd]
              simp only [hlr, if_neg hemb]
            rw [hval] at hfail
            exact absurd hfail (by simp)

/-- Witness for the amended C7 at a concrete input: the failed
`add_memory` of the counterexample leaves the records of the default
collection (and of the target collection) unchanged. -/
theorem failed_mutation_preserves_records_witness :
    recordsOf (add_memory "a" none "id1" none DEFAULT_COLLECTION_NAME
        (.error (.upstream
          "Gemini API failed to return embedding for task 'RETRIEVAL_DOCUMENT'."))
        ⟨[]⟩).2 DEFAULT_COLLECTION_NAME
      = recordsOf ⟨[]⟩ DEFAULT_COLLECTION_NAME :=
  failed_mutation_preserves_records.1 "a" none "id1" none
    DEFAULT_COLLECTION_NAME
    (.error (.upstream
      "Gemini API failed to return embedding for task 'RETRIEVAL_DOCUMENT'."))
    ⟨[]⟩
    (.upstream "Gemini API failed to return embedding for task 'RETRIEVAL_DOCUMENT'.")
    (by decide) DEFAULT_COLLECTION_NAME

/-- A successful embedding call never returns the empty vector, so every
record `add_memory` writes carries a non-empty embedding — the store
invariant under which `update_memory_metadata`'s existing-record branch is
reached. -/
theorem generate_embedding_ok_ne_nil (text task_type : String)
    (apiResult : Option Emb) (e : Emb)
    (h : generate_embedding text task_type apiResult = .ok e) : e ≠ [] := by
  unfold generate_embedding at h
  by_cases ht : text = ""
  · rw [if_pos ht] at h; exact absurd h (by simp)
  · rw [if_neg ht] at h
    cases apiResult with
    | none => exact absurd h (by simp)
    | some e' =>
      have h2 : (if e' = [] then
          (Except.error (Err.upstream ("Gemini API failed to return embedding for task '"
            ++ task_type ++ "'."))) else Except.ok e') = Except.ok e := h
      by_cases he : e' = []
      · rw [if_pos he] at h2; exact absurd h2 (by simp)
      · rw [if_neg he] at h2
        injection h2 with h'
        rw [← h']
        exact he

/-! ### Recall-loop lemmas -/

/-- The extraction loop of `recall_memory` keeps exactly the
`original_text` values of the rows whose metadata carries that field. -/
theorem recall_texts_loop_eq_filterMap (rows : List QueryRow) :
    recall_texts_loop rows =
      rows.filterMap fun row => row.metadata.bind fun md =>
        dictLookup md "original_text" := by
  induction rows with
  | nil => rfl
  | cons row rest ih =>
    cases hm : row.metadata with
    | none => simp [recall_texts_loop, hm, ih]
    | some md =>
      cases hl : dictLookup md "original_text" with
      | none =>
        have hcf : dictContains md "original_text" = false := by
          simp [dictContains, hl]
        simp [recall_texts_loop, hm, hl, hcf, ih]
      | some t =>
        have hne : md ≠ [] := by
          intro h; rw [h] at hl; simp [dictLookup] at hl
        have hct : dictContains md "original_text" = true := by
          simp [dictContains, hl]
        simp [recall_texts_loop, hm, hl, hct, hne, ih]

/-- Likewise for `recall_memory_with_distance`, pairing each kept text with
its row's distance. -/
theorem recall_with_distance_loop_eq_filterMap (rows : List QueryRow) :
    recall_with_distance_loop rows =
      rows.filterMap fun row =>
        (row.metadata.bind fun md => dictLookup md "original_text").map
          fun t => (t, row.distance) := by
  induction rows with
  | nil => rfl
  | cons row rest ih =>
    cases hm : row.metadata with
    | none => simp [recall_with_distance_loop, hm, ih]
    | some md =>
      cases hl : dictLookup md "original_text" with
      | none =>
        have hcf : dictContains md "original_text" = false := by
          simp [dictContains, hl]
        simp [recall_with_distance_loop, hm, hl, hcf, ih]
      | some t =>
        have hne : md ≠ [] := by
          intro h; rw [h] at hl; simp [dictLookup] at hl
        have hct : dictContains md "original_text" = true := by
          simp [dictContains, hl]
        simp [recall_with_distance_loop, hm, hl, hct, hne, ih]

/-- With no keyword, the hybrid extraction loop is the plain recall loop. -/
theorem hybrid_texts_loop_none_eq (rows : List QueryRow) :
    hybrid_texts_loop none rows = recall_texts_loop rows := by
  induction rows with
  | nil => rfl
  | cons row rest ih =>
    cases hm : row.metadata with
    | none => simp [hybrid_texts_loop, recall_texts_loop, hm, ih]
    | some md =>
      by_cases hc : md ≠ [] ∧ dictContains md "original_text"
      · simp [hybrid_texts_loop, recall_texts_loop, hm, hc, ih]
      · simp [hybrid_texts_loop, recall_texts_loop, hm, hc, ih]

/-- With a keyword, the hybrid extraction loop is the plain recall loop
followed by the case-insensitive substring filter. -/
theorem hybrid_texts_loop_some_eq (kw : String) (rows : List QueryRow) :
    hybrid_texts_loop (some kw) rows =
      (recall_texts_loop rows).filter fun t => lowerContains kw t := by
  induction rows with
  | nil => rfl
  | cons row rest ih =>
    cases hm : row.metadata with
    | none => simp [hybrid_texts_loop, recall_texts_loop, hm, ih]
    | some md =>
      by_cases hc : md ≠ [] ∧ dictContains md "original_text"
      · by_cases hkw : lowerContains kw ((dictLookup md "original_text").getD "")
        · simp [hybrid_texts_loop, recall_texts_loop, hm, hc, hkw, ih]
        · simp [hybrid_texts_loop, recall_texts_loop, hm, hc, hkw, ih]
      · simp [hybrid_texts_loop, recall_texts_loop, hm, hc, ih]

/-- The recall loop returns at most one text per row. -/
theorem recall_texts_loop_length_le (rows : List QueryRow) :
    (recall_texts_loop rows).length ≤ rows.length := by
  induction rows with
  | nil => simp [recall_texts_loop]
  | cons row rest ih =>
    cases hm : row.metadata with
    | none =>
      simp only [recall_texts_loop, hm, List.length_cons]
      omega
    | some md =>
      by_cases hc : md ≠ [] ∧ dictContains md "original_text"
      · simp only [recall_texts_loop, hm, if_pos hc, List.length_cons]
        omega
      · simp only [recall_texts_loop, hm, if_neg hc, List.length_cons]
        omega

/-- C10: with the keyword omitted (`None`), `recall_memory_hybrid` returns
exactly what `recall_memory` returns for the same query, `top_k`, filter
and collection (the two calls see the same store and oracles). -/
theorem hybrid_without_keyword_is_recall (query : String) (top_k : Nat)
    (filter : Option Metadata) (name : String) (embedRes : Except Err Emb)
    (oracle : QueryOracle) (s : Store) :
    recall_memory_hybrid query none top_k filter name embedRes oracle s =
      recall_memory query top_k filter name embedRes oracle s := by
  unfold recall_memory_hybrid recall_memory
  by_cases hq : query = ""
  · rw [if_pos hq, if_pos hq]
  · rw [if_neg hq, if_neg hq]
    cases embedRes with
    | error e => rfl
    | ok emb =>
      simp only [hybrid_texts_loop_none_eq]

/-- C4: with a keyword, `recall_memory_hybrid` applies the case-insensitive
substring filter strictly after the vector search: the result is the plain
recall of the oracle's rows filtered by the keyword, every returned text
contains the keyword case-insensitively and was returned by the vector
search, and (the search being limited to `top_k` rows) at most `top_k`
texts come back. -/
theorem hybrid_keyword_filter (query kw : String) (top_k : Nat)
    (filter : Option Metadata) (name : String) (emb : Emb)
    (oracle : QueryOracle) (s : Store) (t : String)
    (hq : query ≠ "")
    (hk : (oracle emb top_k filter name).length ≤ top_k)
    (ht : t ∈ hybrid_texts_loop (some kw) (oracle emb top_k filter name)) :
    recall_memory_hybrid query (some kw) top_k filter name (.ok emb) oracle s =
      (.ok ((recall_texts_loop (oracle emb top_k filter name)).filter
        fun x => lowerContains kw x), (getOrCreate s name).2) ∧
    lowerContains kw t = true ∧
    t ∈ recall_texts_loop (oracle emb top_k filter name) ∧
    (hybrid_texts_loop (some kw) (oracle emb top_k filter name)).length ≤ top_k := by
  rw [hybrid_texts_loop_some_eq] at ht
  refine ⟨?_, (List.mem_filter.mp ht).2, (List.mem_filter.mp ht).1, ?_⟩
  · unfold recall_memory_hybrid
    rw [if_neg hq]
    simp only [hybrid_texts_loop_some_eq]
  · rw [hybrid_texts_loop_some_eq]
    calc ((recall_texts_loop (oracle emb top_k filter name)).filter
          fun x => lowerContains kw x).length
        ≤ (recall_texts_loop (oracle emb top_k filter name)).length :=
          List.length_filter_le _ _
      _ ≤ (oracle emb top_k filter name).length :=
          recall_texts_loop_length_le _
      _ ≤ top_k := hk

/-- Witness for C4 at a concrete input: a two-row oracle where only one
text contains the keyword `"foo"` (case-insensitively). -/
theorem hybrid_keyword_filter_witness :
    recall_memory_hybrid "q" (some "foo") 2 none "c" (.ok [1])
        (fun _ _ _ _ =>
          [⟨some [("original_text", "has FOO inside")], 0⟩,
           ⟨some [("original_text", "no match")], 1⟩]) ⟨[]⟩ =
      (.ok ["has FOO inside"], ⟨[("c", ⟨[]⟩)]⟩) ∧
    lowerContains "foo" "has FOO inside" = true := by
  have h := hybrid_keyword_filter "q" "foo" 2 none "c" [1]
    (fun _ _ _ _ =>
      [⟨some [("original_text", "has FOO inside")], 0⟩,
       ⟨some [("original_text", "no match")], 1⟩]) ⟨[]⟩ "has FOO inside"
    (by decide) (by decide) (by decide)
  exact ⟨h.1.trans (by decide), h.2.1⟩

/-- C8: for both recall operations, every returned item's text is exactly
the `original_text` metadata value of a store row, and a row whose metadata
lacks `original_text` (or is missing) is silently dropped: the returned
list is precisely the `filterMap` of the oracle's rows through the
`original_text` projection. -/
theorem recall_returns_original_texts (query : String) (top_k : Nat)
    (filter : Option Metadata) (name : String) (emb : Emb)
    (oracle : QueryOracle) (s : Store) (hq : query ≠ "") :
    recall_memory query top_k filter name (.ok emb) oracle s =
      (.ok ((oracle emb top_k filter name).filterMap fun row =>
        row.metadata.bind fun md => dictLookup md "original_text"),
       (getOrCreate s name).2) ∧
    recall_memory_with_distance query top_k filter name (.ok emb) oracle s =
      (.ok ((oracle emb top_k filter name).filterMap fun row =>
        (row.metadata.bind fun md => dictLookup md "original_text").map
          fun t => (t, row.distance)),
       (getOrCreate s name).2) := by
  constructor
  · unfold recall_memory
    rw [if_neg hq]
    simp only [recall_texts_loop_eq_filterMap]
  · unfold recall_memory_with_distance
    rw [if_neg hq]
    simp only [recall_with_distance_loop_eq_filterMap]

/-- Witness for C8 at a concrete input: of three rows (one well-formed, one
with metadata lacking `original_text`, one with no metadata) only the
well-formed one is returned, with its text and distance verbatim. -/
theorem recall_returns_original_texts_witness :
    recall_memory "q" 3 none "c" (.ok [1])
        (fun _ _ _ _ =>
          [⟨some [("original_text", "kept")], 0⟩,
           ⟨some [("other", "dropped")], 1⟩,
           ⟨none, 2⟩]) ⟨[]⟩ =
      (.ok ["kept"], ⟨[("c", ⟨[]⟩)]⟩) ∧
    recall_memory_with_distance "q" 3 none "c" (.ok [1])
        (fun _ _ _ _ =>
          [⟨some [("original_text", "kept")], 0⟩,
           ⟨some [("other", "dropped")], 1⟩,
           ⟨none, 2⟩]) ⟨[]⟩ =
      (.ok [("kept", 0)], ⟨[("c", ⟨[]⟩)]⟩) := by
  have h := recall_returns_original_texts "q" 3 none "c" [1]
    (fun _ _ _ _ =>
      [⟨some [("original_text", "kept")], 0⟩,
       ⟨some [("other", "dropped")], 1⟩,
       ⟨none, 2⟩]) ⟨[]⟩ (by decide)
  exact ⟨h.1.trans (by decide), h.2.trans (by decide)⟩

/-! ### Summarization theorems -/

/-- C5: the empty-context short-circuit.  When `recall_memory` comes back
with no texts, `summarize_memory` returns the empty string as a success
without invoking the Model Provider (`gen` flag `false`); and when no
record of the resolved collection carries `original_text`,
`summarize_collection` does the same. -/
theorem empty_context_short_circuit :
    (∀ (query : String) (top_k : Nat) (filter : Option Metadata)
        (name : String) (embedRes : Except Err Emb) (oracle : QueryOracle)
        (gen : String → String → Except Err String) (s s1 : Store),
      query ≠ "" →
      recall_memory query top_k filter name embedRes oracle s = (.ok [], s1) →
      summarize_memory query top_k filter name embedRes oracle gen s =
        ((.ok "", false), s1)) ∧
    (∀ (name query : String) (gen : String → String → Except Err String)
        (s : Store),
      name ≠ "" →
      collection_texts_loop ((getOrCreate s name).1.recs.map fun r => r.2.2)
        = [] →
      summarize_collection name query gen s =
        ((.ok "", false), (getOrCreate s name).2)) := by
  constructor
  · intro query top_k filter name embedRes oracle gen s s1 hq hrec
    unfold summarize_memory
    rw [if_neg hq]
    simp [hrec]
  · intro name query gen s hn hloop
    unfold summarize_collection
    rw [if_neg hn]
    by_cases hm : ((getOrCreate s name).1.recs.map fun r => r.2.2) = []
    · simp only [hm]
      rfl
    · simp only [hloop, hm]
      rfl

/-- Witness for C5 at concrete inputs: a query whose search returns no
rows, and an (absent, hence empty) collection. -/
theorem empty_context_short_circuit_witness :
    summarize_memory "q" 1 none "c" (.ok [1]) (fun _ _ _ _ => [])
        (fun _ _ => .ok "S") ⟨[]⟩ = ((.ok "", false), ⟨[("c", ⟨[]⟩)]⟩) ∧
    summarize_collection "c" "q" (fun _ _ => .ok "S") ⟨[]⟩ =
      ((.ok "", false), ⟨[("c", ⟨[]⟩)]⟩) :=
  ⟨empty_context_short_circuit.1 "q" 1 none "c" (.ok [1]) (fun _ _ _ _ => [])
      (fun _ _ => .ok "S") ⟨[]⟩ ⟨[("c", ⟨[]⟩)]⟩ (by decide) (by decide),
   empty_context_short_circuit.2 "c" "q" (fun _ _ => .ok "S") ⟨[]⟩
      (by decide) (by decide)⟩

/-- C9, counterexample: the two summarization operations do NOT join with
the same separator.  With the identity provider `gen = fun c _ => .ok c`
(which returns the joined context verbatim), equal retrieved-text lists
`["a", "b"]` and equal query `"q"` produce different joined contexts:
`summarize_memory` sends `"a\n---\nb"` (real newlines) while
`summarize_collection` sends the literal-backslash `"a\\n---\\nb"`. -/
theorem summarize_same_context_cex :
    recall_memory "q" 2 none "c" (.ok [1])
        (fun _ _ _ _ =>
          [⟨some [("original_text", "a")], 0⟩,
           ⟨some [("original_text", "b")], 0⟩])
        ⟨[("c", ⟨[("i1", [1], [("original_text", "a")]),
                  ("i2", [1], [("original_text", "b")])]⟩)]⟩ =
      (.ok ["a", "b"],
        ⟨[("c", ⟨[("i1", [1], [("original_text", "a")]),
                  ("i2", [1], [("original_text", "b")])]⟩)]⟩) ∧
    collection_texts_loop
        ((getOrCreate ⟨[("c", ⟨[("i1", [1], [("original_text", "a")]),
            ("i2", [1], [("original_text", "b")])]⟩)]⟩ "c").1.recs.map
          fun r => r.2.2) = ["a", "b"] ∧
    (summarize_memory "q" 2 none "c" (.ok [1])
        (fun _ _ _ _ =>
          [⟨some [("original_text", "a")], 0⟩,
           ⟨some [("original_text", "b")], 0⟩])
        (fun context _query => .ok context)
        ⟨[("c", ⟨[("i1", [1], [("original_text", "a")]),
                  ("i2", [1], [("original_text", "b")])]⟩)]⟩).1 =
      (.ok "a\n---\nb", true) ∧
    (summarize_collection "c" "q" (fun context _query => .ok context)
        ⟨[("c", ⟨[("i1", [1], [("original_text", "a")]),
                  ("i2", [1], [("original_text", "b")])]⟩)]⟩).1 =
      (.ok "a\\n---\\nb", true) ∧
    ("a\n---\nb" : String) ≠ "a\\n---\\nb" := by
  refine ⟨by decide, by decide, by decide, by decide, by decide⟩

/-- The length of a Python join. -/
theorem joinSep_length (sep : String) : ∀ ts : List String,
    (joinSep sep ts).length =
      (ts.map String.length).sum + sep.length * (ts.length - 1)
  | [] => by simp [joinSep]
  | [t] => by simp [joinSep]
  | t :: t' :: ts => by
    have ih := joinSep_length sep (t' :: ts)
    simp only [joinSep] at ih ⊢
    rw [String.length_append, String.length_append, ih]
    simp only [List.map_cons, List.sum_cons, List.length_cons,
      Nat.add_sub_cancel, Nat.mul_succ]
    omega

/-- C9 as amended: both pipelines join the retrieved texts with a fixed
separator, but the separators differ — `"\n---\n"` (five characters) in
`summarize_memory` against the literal `"\\n---\\n"` (seven characters) in
`summarize_collection` — so for equal retrieved-text lists the two joined
contexts coincide exactly when the list has at most one text, and always
differ once two or more texts are joined. -/
theorem summarize_pipelines_join_separators (ts : List String) :
    (ts.length ≤ 1 →
      summarize_memory_combined ts = summarize_collection_combined ts) ∧
    (2 ≤ ts.length →
      summarize_memory_combined ts ≠ summarize_collection_combined ts) := by
  constructor
  · intro h
    cases ts with
    | nil => rfl
    | cons t rest =>
      cases rest with
      | nil => rfl
      | cons t' rest' => simp at h
  · intro h heq
    have hlen : (summarize_memory_combined ts).length =
        (summarize_collection_combined ts).length := by rw [heq]
    unfold summarize_memory_combined summarize_collection_combined at hlen
    rw [joinSep_length, joinSep_length] at hlen
    have h5 : ("\n---\n" : String).length = 5 := rfl
    have h7 : ("\\n---\\n" : String).length = 7 := rfl
    rw [h5, h7] at hlen
    omega

/-- Witness for the amended C9: equal contexts for a one-text list,
different contexts for a two-text list. -/
theorem summarize_pipelines_join_separators_witness :
    summarize_memory_combined ["a"] = summarize_collection_combined ["a"] ∧
    summarize_memory_combined ["a", "b"] ≠ summarize_collection_combined ["a", "b"] :=
  ⟨(summarize_pipelines_join_separators ["a"]).1 (by decide),
   (summarize_pipelines_join_separators ["a", "b"]).2 (by decide)⟩

end ChromaMcp
